import Mathlib

set_option autoImplicit false

/-
  Verification development for the shard-role resource-acquisition layer
  (collection acquisition, placement validation, yield/restore protocol,
  snapshot attempt and local catalog write fence).

  The repository ships the unit-test file `src/mongo/db/shard_role_test.cpp`
  but not the implementation `shard_role.cpp` itself, so the operations below
  are modelled from the specification (sections 3 through 4.7) and cross-checked
  against the expectations recorded in the unit tests.  The model is for a
  single namespace (and its database): placement validation, catalog identity
  checks and the yield/restore protocol all act one namespace at a time.
-/

deriving instance DecidableEq for Except

namespace ShardRole

/-- A namespace: database name plus collection name (`NamespaceString`). -/
structure Nss where
  db : String
  coll : String
deriving DecidableEq, Repr

/-- Modelled from the spec: a `NamespaceRef` given as strings must have
non-empty database and collection components (section 3, `NamespaceRef`). -/
def Nss.valid (n : Nss) : Bool :=
  n.db != "" && n.coll != ""

/-- A database version: an opaque comparable version tied to a database
generation.  Only equality of versions is observable, so it is a `Nat`. -/
abbrev DatabaseVersion := Nat

/-- A shard version: either one of the two sentinels (`UNSHARDED`, `IGNORED`)
or a concrete placement version.  Only equality is observable. -/
inductive ShardVersion where
  | UNSHARDED : ShardVersion
  | IGNORED : ShardVersion
  | placed (version : Nat) : ShardVersion
deriving DecidableEq, Repr

/-- Modelled from the spec: `PlacementConcern` is an optional database version
together with an optional shard version; both absent means no placement
assumption (section 3). -/
structure PlacementConcern where
  dbVersion : Option DatabaseVersion
  shardVersion : Option ShardVersion
deriving DecidableEq, Repr

/-- Operation type of an acquisition request (`AcquisitionPrerequisites`). -/
inductive OperationType where
  | kRead : OperationType
  | kWrite : OperationType
deriving DecidableEq, Repr

/-- One chunk of a chunk map: a key range and the shard that owns it. -/
structure Chunk where
  lo : Int
  hi : Int
  owner : String
deriving DecidableEq, Repr

/-- The authoritative collection placement metadata known to this shard:
cleared (unknown), known untracked/unsharded, or sharded with a placement
version and a chunk map. -/
inductive TrackedPlacement where
  | unknown : TrackedPlacement
  | untracked : TrackedPlacement
  | sharded (version : Nat) (chunks : List Chunk) : TrackedPlacement
deriving DecidableEq, Repr

/-- A local-catalog entry for a namespace: a collection with an identity
(UUID, modelled as a `Nat`) or a view. -/
inductive CatalogEntry where
  | collection (uuid : Nat) : CatalogEntry
  | view : CatalogEntry
deriving DecidableEq, Repr

/-- The local catalog, an association of namespaces to entries. -/
abbrev Catalog := List (Nss × CatalogEntry)

/-- First entry registered for a namespace, if any. -/
def lookupCatalog : Catalog → Nss → Option CatalogEntry
  | [], _ => none
  | (n, e) :: rest, nss => if n = nss then some e else lookupCatalog rest nss

/-- Read-timestamp source of the storage snapshot (`RecoveryUnit.ReadSource`). -/
inductive ReadSource where
  | kNoTimestamp : ReadSource
  | kLastApplied : ReadSource
deriving DecidableEq, Repr

/-- Modelled from the spec: the external facts the missing `shard_role.cpp`
consults for one namespace — the sharding metadata store (database version,
collection placement, critical-section flags), the local catalog, the catalog
instance generation, the replication term and the replica role (sections 3
and 6, collaborator interfaces). -/
structure ShardRoleState where
  thisShard : String
  dbMeta : Option DatabaseVersion
  dbCritSec : Bool
  collMeta : TrackedPlacement
  collCritSec : Bool
  catalog : Catalog
  catalogGen : Nat
  term : Nat
  isSecondary : Bool
deriving DecidableEq, Repr

/-- Payload of a `StaleDbVersion` error (`StaleDbRoutingVersion`). -/
structure StaleDbInfo where
  dbName : String
  received : DatabaseVersion
  wanted : Option DatabaseVersion
  critSignal : Bool
deriving DecidableEq, Repr

/-- Payload of a `StaleConfig` error (`StaleConfigInfo`). -/
structure StaleConfigInfo where
  nss : Nss
  received : ShardVersion
  wanted : Option ShardVersion
  shardId : String
  critSignal : Bool
deriving DecidableEq, Repr

/-- The errors the acquisition and restore paths can surface. -/
inductive AcqError where
  | invalidNamespace : AcqError
  | staleDbVersion (info : StaleDbInfo) : AcqError
  | staleConfig (info : StaleConfigInfo) : AcqError
  | commandNotSupportedOnView : AcqError
  | collectionUUIDMismatch : AcqError
  | appearedAfterYield743870 : AcqError
deriving DecidableEq, Repr

/-- Whether an error is one of the two staleness errors. -/
def AcqError.isStale : AcqError → Bool
  | .staleDbVersion _ => true
  | .staleConfig _ => true
  | _ => false

/-- Modelled from the spec: the database-version half of the placement
validator (section 4.4).  A database-level critical section signals first
(with an unknown wanted version); cleared metadata reports an unknown wanted
version; otherwise the received version is compared for equality. -/
def checkDbVersion (st : ShardRoleState) (dbName : String) (received : DatabaseVersion) :
    Option AcqError :=
  if st.dbCritSec then
    some (.staleDbVersion ⟨dbName, received, none, true⟩)
  else
    match st.dbMeta with
    | none => some (.staleDbVersion ⟨dbName, received, none, false⟩)
    | some wanted =>
      if received = wanted then none
      else some (.staleDbVersion ⟨dbName, received, some wanted, false⟩)

/-- The authoritative shard version this shard would report for its current
collection placement metadata, if it knows one. -/
def authShardVersion : TrackedPlacement → Option ShardVersion
  | .unknown => none
  | .untracked => some .UNSHARDED
  | .sharded v _ => some (.placed v)

/-- Modelled from the spec: the shard-version half of the placement validator
(section 4.4).  The `IGNORED` sentinel skips the check entirely; a
collection-level critical section signals first (with an unknown wanted
version); cleared metadata reports an unknown wanted version; otherwise the
received version is compared for equality. -/
def checkShardVersion (st : ShardRoleState) (nss : Nss) (received : ShardVersion) :
    Option AcqError :=
  if received = .IGNORED then none
  else if st.collCritSec then
    some (.staleConfig ⟨nss, received, none, st.thisShard, true⟩)
  else
    match authShardVersion st.collMeta with
    | none => some (.staleConfig ⟨nss, received, none, st.thisShard, false⟩)
    | some wanted =>
      if received = wanted then none
      else some (.staleConfig ⟨nss, received, some wanted, st.thisShard, false⟩)

/-- Modelled from the spec: the placement validator (section 4.4).  Each half
runs only when the concern carries the corresponding version; the database
version is checked before the shard version. -/
def checkPlacement (st : ShardRoleState) (nss : Nss) (pc : PlacementConcern) :
    Option AcqError :=
  match pc.dbVersion with
  | some dv =>
    match checkDbVersion st nss.db dv with
    | some e => some e
    | none =>
      match pc.shardVersion with
      | some sv => checkShardVersion st nss sv
      | none => none
  | none =>
    match pc.shardVersion with
    | some sv => checkShardVersion st nss sv
    | none => none

/-- Per-namespace sharding description frozen at acquisition/restore time. -/
structure ShardingDescription where
  isSharded : Bool
  shardId : String
  chunks : List Chunk
deriving DecidableEq, Repr

/-- Modelled from the spec: the description frozen into a handle reflects the
placement concern, not the raw authoritative metadata — an acquisition whose
concern carries no shard version treats the collection as unsharded even when
the authoritative metadata is sharded (sections 3 and 4.5; test
`AcquireShardedCollWithoutSpecifyingPlacementVersion`). -/
def frozenDescription (st : ShardRoleState) (pc : PlacementConcern) : ShardingDescription :=
  match pc.shardVersion, st.collMeta with
  | some _, .sharded _ chunks => ⟨true, st.thisShard, chunks⟩
  | _, _ => ⟨false, st.thisShard, []⟩

/-- The key-membership answer of a sharding filter derived from a frozen
description: a key belongs to this shard when some frozen chunk containing it
is owned by the description's shard. -/
def keyBelongsToMe (d : ShardingDescription) (k : Int) : Bool :=
  d.chunks.any fun c => decide (c.lo ≤ k) && decide (k < c.hi) && c.owner == d.shardId

/-- A collection acquisition request: namespace, placement concern and
operation type (`CollectionAcquisitionRequest`). -/
structure CollectionAcquisitionRequest where
  nss : Nss
  placementConcern : PlacementConcern
  operationType : OperationType
deriving DecidableEq, Repr

/-- The observable state of a collection acquisition handle
(`ScopedCollectionAcquisition`): identity, catalog pointer (absent when the
collection does not exist) and the frozen sharding description. -/
structure ScopedCollectionAcquisition where
  nss : Nss
  operationType : OperationType
  placementConcern : PlacementConcern
  uuid : Option Nat
  shardingDescription : ShardingDescription
deriving DecidableEq, Repr

/-- The handle's `exists` accessor: the catalog pointer is non-null. -/
def collectionExists (a : ScopedCollectionAcquisition) : Bool :=
  a.uuid.isSome

/-- The handle's `getShardingFilter` accessor: populated only when the frozen
description is sharded. -/
def getShardingFilter (a : ScopedCollectionAcquisition) : Option ShardingDescription :=
  if a.shardingDescription.isSharded then some a.shardingDescription else none

/-- Lock modes a test can observe on the locker. -/
inductive LockMode where
  | MODE_NONE : LockMode
  | MODE_IS : LockMode
  | MODE_IX : LockMode
deriving DecidableEq, Repr

/-- Lock state held on behalf of one acquisition: global, database and
collection resources. -/
structure LockState where
  globalLock : LockMode
  dbLock : LockMode
  collLock : LockMode
deriving DecidableEq, Repr

/-- All locks dropped. -/
def LockState.released : LockState := ⟨.MODE_NONE, .MODE_NONE, .MODE_NONE⟩

/-- Modelled from the spec: the locking path takes global, database and
collection intent locks; the lock-free path takes only the lightest global
intent marker (sections 4.2 and 4.5). -/
def locksForPolicy (withLocks : Bool) : LockState :=
  if withLocks then ⟨.MODE_IX, .MODE_IX, .MODE_IX⟩
  else ⟨.MODE_IS, .MODE_NONE, .MODE_NONE⟩

/-- Modelled from the spec: the read-timestamp source selection of the
snapshot attempt — `kLastApplied` on a secondary, `kNoTimestamp` on a primary
(section 4.3, `changeReadSourceForSecondaryReads`). -/
def computeReadSource (st : ShardRoleState) : ReadSource :=
  if st.isSecondary then .kLastApplied else .kNoTimestamp

/-- Modelled from the spec: the `TransactionResources` aggregate owning one
acquisition, its lock policy and state, and the read source (section 4.6). -/
structure TransactionResources where
  acquisition : ScopedCollectionAcquisition
  withLocks : Bool
  locks : LockState
  readSource : ReadSource
deriving DecidableEq, Repr

/-- Modelled from the spec: collection acquisition, replacing the missing
`acquireCollection` / `acquireCollectionsOrViewsWithoutTakingLocks` of
`shard_role.cpp` (sections 4.4 and 4.5).  The namespace is validated first,
then the placement concern, then the namespace is resolved in the local
catalog (a view fails a collection-only acquisition; a missing namespace
yields a handle with a null catalog pointer). -/
def acquireCollection (st : ShardRoleState) (req : CollectionAcquisitionRequest)
    (withLocks : Bool) : Except AcqError TransactionResources :=
  if req.nss.valid then
    match checkPlacement st req.nss req.placementConcern with
    | some e => .error e
    | none =>
      match lookupCatalog st.catalog req.nss with
      | some .view => .error .commandNotSupportedOnView
      | some (.collection u) =>
        .ok { acquisition := { nss := req.nss
                               operationType := req.operationType
                               placementConcern := req.placementConcern
                               uuid := some u
                               shardingDescription := frozenDescription st req.placementConcern }
              withLocks := withLocks
              locks := locksForPolicy withLocks
              readSource := computeReadSource st }
      | none =>
        .ok { acquisition := { nss := req.nss
                               operationType := req.operationType
                               placementConcern := req.placementConcern
                               uuid := none
                               shardingDescription := frozenDescription st req.placementConcern }
              withLocks := withLocks
              locks := locksForPolicy withLocks
              readSource := computeReadSource st }
  else .error .invalidNamespace

/-- Modelled from the spec: yield detaches the resources from the operation,
releasing all locks while retaining the acquisition identities and frozen
descriptions (section 4.6, replacing the missing
`yieldTransactionResourcesFromOperationContext`). -/
def yieldTransactionResourcesFromOperationContext (tr : TransactionResources) :
    TransactionResources :=
  { tr with locks := LockState.released }

/-- Locks reacquired and read source recomputed against the current state;
the acquisition itself (identity and frozen description) is untouched. -/
def rebuildResources (st : ShardRoleState) (tr : TransactionResources) : TransactionResources :=
  { tr with locks := locksForPolicy tr.withLocks
            readSource := computeReadSource st }

/-- Placement re-validation at restore: re-run only for Write-type
acquisitions, skipped for Read-type acquisitions (section 4.6, step 3). -/
def restorePlacementStep (st : ShardRoleState) (tr : TransactionResources) :
    Except AcqError TransactionResources :=
  match tr.acquisition.operationType with
  | .kWrite =>
    match checkPlacement st tr.acquisition.nss tr.acquisition.placementConcern with
    | some e => .error e
    | none => .ok (rebuildResources st tr)
  | .kRead => .ok (rebuildResources st tr)

/-- Modelled from the spec: restore of yielded resources, replacing the
missing `restoreTransactionResourcesToOperationContext` (section 4.6).  The
catalog identity check runs first: a previously existing collection must still
resolve to the same UUID and kind (otherwise `CollectionUUIDMismatch`); a
previously non-existent namespace must still be absent (otherwise the distinct
internal error 743870).  Then placement is re-validated for Write-type
acquisitions only, locks are reacquired and the read source is recomputed. -/
def restoreTransactionResourcesToOperationContext (st : ShardRoleState)
    (tr : TransactionResources) : Except AcqError TransactionResources :=
  match tr.acquisition.uuid, lookupCatalog st.catalog tr.acquisition.nss with
  | some u, some (.collection u2) =>
    if u2 = u then restorePlacementStep st tr else .error .collectionUUIDMismatch
  | some _, some .view => .error .collectionUUIDMismatch
  | some _, none => .error .collectionUUIDMismatch
  | none, some _ => .error .appearedAfterYield743870
  | none, none => restorePlacementStep st tr

/-- The database-level part of the authoritative placement state: the
database version known to the shard and the database critical-section flag. -/
def dbPlacementState (st : ShardRoleState) : Option DatabaseVersion × Bool :=
  (st.dbMeta, st.dbCritSec)

/-- The collection-level part of the authoritative placement state: the shard
version the shard would report and the collection critical-section flag. -/
def collPlacementState (st : ShardRoleState) : Option ShardVersion × Bool :=
  (authShardVersion st.collMeta, st.collCritSec)

/-- The authoritative placement changed between two states: the database
version or the shard version (including their critical-section flags)
differs. -/
def placementChanged (st st2 : ShardRoleState) : Prop :=
  dbPlacementState st ≠ dbPlacementState st2 ∨ collPlacementState st ≠ collPlacementState st2

instance (st st2 : ShardRoleState) : Decidable (placementChanged st st2) := by
  unfold placementChanged; infer_instance

/-- A restore outcome that failed with one of the two staleness errors. -/
def failsWithStale (r : Except AcqError TransactionResources) : Bool :=
  match r with
  | .error e => e.isStale
  | .ok _ => false

/-- An outcome that succeeded. -/
def acqOk (r : Except AcqError TransactionResources) : Bool :=
  match r with
  | .error _ => false
  | .ok _ => true

/-- Modelled from the spec: the commit callback of the missing
`ScopedLocalCatalogWriteFence` — on commit of the unit of work the associated
handle's cached view is updated to the newly committed identity.  The
callback depends only on the handle reference retained by the unit of work,
not on the fence object, so it takes no fence argument (section 4.7). -/
def fenceOnCommit (a : ScopedCollectionAcquisition) (newUuid : Nat) :
    ScopedCollectionAcquisition :=
  { a with uuid := some newUuid }

/-- Modelled from the spec: the rollback callback of the missing
`ScopedLocalCatalogWriteFence` — on rollback the handle's cached view is
reset to whatever the catalog now truthfully contains, which may be an
identity committed by a concurrent actor, not the pre-attempt state
(section 4.7). -/
def fenceOnRollback (currentCatalog : Catalog) (a : ScopedCollectionAcquisition) :
    ScopedCollectionAcquisition :=
  { a with uuid := match lookupCatalog currentCatalog a.nss with
                   | some (.collection u) => some u
                   | _ => none }

/-- Outcome of committing a unit of work that creates a collection. -/
inductive WuowOutcome where
  | committed : WuowOutcome
  | writeConflict : WuowOutcome
deriving DecidableEq, Repr

/-- Modelled from the spec: committing a unit of work that creates the
handle's namespace under a `ScopedLocalCatalogWriteFence`.  If another actor
already committed an entry for the namespace, the local commit fails with a
write conflict and the rollback callback runs against the current catalog;
otherwise the creation commits and the commit callback runs (section 4.7 and
test `ScopedLocalCatalogWriteFenceWUOWRollbackAfterANotherClientCreatedCollection`). -/
def commitCreateUnderFence (catalog : Catalog) (a : ScopedCollectionAcquisition)
    (newUuid : Nat) : WuowOutcome × Catalog × ScopedCollectionAcquisition :=
  match lookupCatalog catalog a.nss with
  | some _ => (.writeConflict, catalog, fenceOnRollback catalog a)
  | none => (.committed, (a.nss, .collection newUuid) :: catalog, fenceOnCommit a newUuid)

/-- The observable state of a `SnapshotAttempt` while it walks its
`Init → InitialStateSnapshotted → ReadSourceSelected → SnapshotOpened`
state machine. -/
structure SnapshotAttempt where
  replTerm : Nat
  catalogGen : Nat
  readSource : ReadSource
  openedSnapshot : Bool
deriving DecidableEq, Repr

/-- Modelled from the spec: `snapshotInitialState` records the catalog
instance and the replication term visible before any storage snapshot is
opened (section 4.3). -/
def snapshotInitialState (st : ShardRoleState) : SnapshotAttempt :=
  { replTerm := st.term
    catalogGen := st.catalogGen
    readSource := .kNoTimestamp
    openedSnapshot := false }

/-- Modelled from the spec: `changeReadSourceForSecondaryReads` switches the
read source to `kLastApplied` on a secondary and leaves `kNoTimestamp` on a
primary (section 4.3). -/
def changeReadSourceForSecondaryReads (st : ShardRoleState) (sa : SnapshotAttempt) :
    SnapshotAttempt :=
  { sa with readSource := computeReadSource st }

/-- Modelled from the spec: `openStorageSnapshot` opens the underlying
storage snapshot (section 4.3). -/
def openStorageSnapshot (sa : SnapshotAttempt) : SnapshotAttempt :=
  { sa with openedSnapshot := true }

/-- Modelled from the spec: `getConsistentCatalog` returns the catalog view
only if neither the catalog instance nor the replication term changed since
`snapshotInitialState`; otherwise it returns none and the caller must retry
the whole acquisition (section 4.3). -/
def getConsistentCatalog (st : ShardRoleState) (sa : SnapshotAttempt) : Option Catalog :=
  if st.catalogGen = sa.catalogGen && st.term = sa.replTerm then some st.catalog else none

/-- The handle a successful acquisition returns, written out: identity and
placement concern copied from the request, catalog pointer from the local
catalog, sharding description frozen from the current metadata, locks per the
policy and the read source per the replica role. -/
def acquiredResources (st : ShardRoleState) (req : CollectionAcquisitionRequest)
    (b : Bool) : TransactionResources :=
  { acquisition := { nss := req.nss
                     operationType := req.operationType
                     placementConcern := req.placementConcern
                     uuid := match lookupCatalog st.catalog req.nss with
                             | some (.collection u) => some u
                             | _ => none
                     shardingDescription := frozenDescription st req.placementConcern }
    withLocks := b
    locks := locksForPolicy b
    readSource := computeReadSource st }

theorem acquire_ok_spec (st : ShardRoleState) (req : CollectionAcquisitionRequest) (b : Bool)
    (tr : TransactionResources) (h : acquireCollection st req b = .ok tr) :
    tr = acquiredResources st req b
      ∧ checkPlacement st req.nss req.placementConcern = none
      ∧ lookupCatalog st.catalog req.nss ≠ some .view
      ∧ req.nss.valid = true := by
  unfold acquireCollection at h
  split at h
  · rename_i hv
    split at h
    · cases h
    · rename_i hpc
      split at h
      · cases h
      · rename_i u hlook
        cases h
        refine ⟨?_, hpc, by simp [hlook], hv⟩
        simp [acquiredResources, hlook]
      · rename_i hlook
        cases h
        refine ⟨?_, hpc, by simp [hlook], hv⟩
        simp [acquiredResources, hlook]
  · cases h

theorem restore_reduces_to_placement (st st2 : ShardRoleState)
    (req : CollectionAcquisitionRequest) (b : Bool) (tr : TransactionResources)
    (h : acquireCollection st req b = .ok tr)
    (hcat : lookupCatalog st2.catalog req.nss = lookupCatalog st.catalog req.nss) :
    restoreTransactionResourcesToOperationContext st2
        (yieldTransactionResourcesFromOperationContext tr)
      = restorePlacementStep st2 (yieldTransactionResourcesFromOperationContext tr) := by
  obtain ⟨htr, -, hview, -⟩ := acquire_ok_spec st req b tr h
  subst htr
  unfold restoreTransactionResourcesToOperationContext
  unfold yieldTransactionResourcesFromOperationContext acquiredResources
  simp only
  rw [hcat]
  cases hlook : lookupCatalog st.catalog req.nss with
  | none => simp
  | some e =>
    cases e with
    | collection u => simp
    | view => exact absurd hlook hview

theorem checkDbVersion_some_isStale (st : ShardRoleState) (dbName : String)
    (dv : DatabaseVersion) (e : AcqError) (h : checkDbVersion st dbName dv = some e) :
    e.isStale = true := by
  unfold checkDbVersion at h
  split at h
  · cases h; rfl
  · split at h
    · cases h; rfl
    · split at h
      · cases h
      · cases h; rfl

theorem checkShardVersion_some_isStale (st : ShardRoleState) (nss : Nss)
    (sv : ShardVersion) (e : AcqError) (h : checkShardVersion st nss sv = some e) :
    e.isStale = true := by
  unfold checkShardVersion at h
  split at h
  · cases h
  · split at h
    · cases h; rfl
    · split at h
      · cases h; rfl
      · split at h
        · cases h
        · cases h; rfl

theorem checkPlacement_some_isStale (st : ShardRoleState) (nss : Nss) (pc : PlacementConcern)
    (e : AcqError) (h : checkPlacement st nss pc = some e) : e.isStale = true := by
  unfold checkPlacement at h
  split at h
  · rename_i dv hdv
    split at h
    · rename_i e2 hdb
      cases h
      exact checkDbVersion_some_isStale st nss.db dv e hdb
    · split at h
      · rename_i sv hsv
        exact checkShardVersion_some_isStale st nss sv e h
      · cases h
  · split at h
    · rename_i sv hsv
      exact checkShardVersion_some_isStale st nss sv e h
    · cases h

theorem checkPlacement_none_iff (st : ShardRoleState) (nss : Nss)
    (dv : DatabaseVersion) (sv : ShardVersion) (hsv : sv ≠ .IGNORED) :
    checkPlacement st nss ⟨some dv, some sv⟩ = none
      ↔ (dbPlacementState st = (some dv, false) ∧ collPlacementState st = (some sv, false)) := by
  unfold checkPlacement checkDbVersion checkShardVersion dbPlacementState collPlacementState
  simp only [hsv, if_false]
  constructor
  · intro h
    by_cases hcs : st.dbCritSec
    · simp [hcs] at h
    · simp [hcs] at h
      cases hdb : st.dbMeta with
      | none => simp [hdb] at h
      | some w =>
        simp [hdb] at h
        by_cases hdw : dv = w
        · subst hdw
          simp at h
          by_cases hccs : st.collCritSec
          · simp [hccs] at h
          · simp [hccs] at h
            cases hcm : authShardVersion st.collMeta with
            | none => simp [hcm] at h
            | some wsv =>
              simp [hcm] at h
              by_cases hsw : sv = wsv
              · subst hsw; simp [hcs, hccs]
              · simp [hsw] at h
        · simp [hdw] at h
  · rintro ⟨h1, h2⟩
    have hdb : st.dbMeta = some dv := by
      have := congrArg Prod.fst h1; simpa using this
    have hcs : st.dbCritSec = false := by
      have := congrArg Prod.snd h1; simpa using this
    have hcm : authShardVersion st.collMeta = some sv := by
      have := congrArg Prod.fst h2; simpa using this
    have hccs : st.collCritSec = false := by
      have := congrArg Prod.snd h2; simpa using this
    simp [hdb, hcs, hcm, hccs]

/-- C6: for a snapshot attempt on which `snapshotInitialState`,
`changeReadSourceForSecondaryReads` and `openStorageSnapshot` have run
against a state, `getConsistentCatalog` against a later state returns the
catalog view if and only if neither the catalog instance nor the replication
term changed; in either of those two cases it returns none, signalling the
caller to retry the whole acquisition. -/
theorem getConsistentCatalog_iff_unchanged (st0 st1 : ShardRoleState) :
    (getConsistentCatalog st1
        (openStorageSnapshot (changeReadSourceForSecondaryReads st0
          (snapshotInitialState st0)))).isSome
      = (decide (st1.catalogGen = st0.catalogGen) && decide (st1.term = st0.term)) := by
  unfold getConsistentCatalog openStorageSnapshot changeReadSourceForSecondaryReads
    snapshotInitialState
  simp only
  split
  · rename_i hcond
    simp at hcond
    simp [hcond]
  · rename_i hcond
    simp at hcond
    by_cases h1 : st1.catalogGen = st0.catalogGen
    · simp [h1] at hcond ⊢
      simp [hcond]
    · simp [h1]

/-- C7: for every acquisition, locked or lock-free, yielding the transaction
resources and immediately restoring them against the unchanged state succeeds
and is a no-op: the restored resources equal the original ones, including the
exact lock modes (or the absence of locks on the lock-free path) held before
the yield. -/
theorem yield_then_restore_roundtrip (st : ShardRoleState)
    (req : CollectionAcquisitionRequest) (b : Bool) (tr : TransactionResources)
    (h : acquireCollection st req b = .ok tr) :
    restoreTransactionResourcesToOperationContext st
        (yieldTransactionResourcesFromOperationContext tr) = .ok tr := by
  rw [restore_reduces_to_placement st st req b tr h rfl]
  obtain ⟨htr, hpc, -, -⟩ := acquire_ok_spec st req b tr h
  subst htr
  unfold restorePlacementStep yieldTransactionResourcesFromOperationContext
    rebuildResources acquiredResources
  cases hty : req.operationType <;> simp [hpc]

/-- C8: an acquisition request whose placement concern has both the database
version and the shard version absent succeeds, with locks or lock-free,
regardless of the authoritative placement state of the namespace (the state,
including sharded metadata, cleared metadata and critical sections, is
universally quantified). -/
theorem acquire_without_placement_concern_succeeds (st : ShardRoleState) (nss : Nss)
    (ty : OperationType) (b : Bool)
    (hv : nss.valid = true)
    (hnotview : lookupCatalog st.catalog nss ≠ some .view) :
    acqOk (acquireCollection st ⟨nss, ⟨none, none⟩, ty⟩ b) = true := by
  unfold acquireCollection checkPlacement
  simp only [hv, if_true]
  cases hl : lookupCatalog st.catalog nss with
  | none => simp [acqOk]
  | some e =>
    cases e with
    | collection u => simp [acqOk]
    | view => exact absurd hl hnotview

/-- C9: acquiring an authoritatively sharded collection without specifying a
placement version succeeds, but the frozen sharding description reports not
sharded and the handle provides no sharding filter: the frozen view reflects
the unversioned concern, not the authoritative sharded metadata. -/
theorem unversioned_acquisition_of_sharded_collection (st : ShardRoleState) (nss : Nss)
    (ty : OperationType) (b : Bool) (v : Nat) (chunks : List Chunk) (u : Nat)
    (hv : nss.valid = true)
    (hmeta : st.collMeta = .sharded v chunks)
    (hcat : lookupCatalog st.catalog nss = some (.collection u)) :
    ∃ tr, acquireCollection st ⟨nss, ⟨none, none⟩, ty⟩ b = .ok tr
      ∧ collectionExists tr.acquisition = true
      ∧ tr.acquisition.shardingDescription.isSharded = false
      ∧ getShardingFilter tr.acquisition = none := by
  refine ⟨acquiredResources st ⟨nss, ⟨none, none⟩, ty⟩ b, ?_, ?_, ?_, ?_⟩
  · unfold acquireCollection checkPlacement
    simp only [hv, if_true]
    simp [hcat, acquiredResources]
  · simp [acquiredResources, collectionExists, hcat]
  · simp [acquiredResources, frozenDescription]
  · simp [acquiredResources, getShardingFilter, frozenDescription]

/-- C10: placement validation runs even for namespaces absent from the local
catalog: acquiring a non-existent namespace with a stale database version
fails with `StaleDbVersion` carrying the received and wanted versions (and
not any not-found error), while acquiring the same namespace with an absent
or satisfied placement concern succeeds and returns a handle whose catalog
pointer is null and whose sharding description reports not sharded. -/
theorem inexistent_namespace_placement_validation (st : ShardRoleState) (nss : Nss)
    (ty : OperationType) (b : Bool) (dv wdb : DatabaseVersion)
    (hv : nss.valid = true)
    (hcat : lookupCatalog st.catalog nss = none)
    (hdb : st.dbMeta = some wdb)
    (hcs : st.dbCritSec = false) :
    (dv ≠ wdb →
      acquireCollection st ⟨nss, ⟨some dv, none⟩, ty⟩ b
        = .error (.staleDbVersion ⟨nss.db, dv, some wdb, false⟩))
    ∧ (∀ pc : PlacementConcern, pc = ⟨none, none⟩ ∨ pc = ⟨some wdb, none⟩ →
        ∃ tr, acquireCollection st ⟨nss, pc, ty⟩ b = .ok tr
          ∧ tr.acquisition.uuid = none
          ∧ collectionExists tr.acquisition = false
          ∧ tr.acquisition.shardingDescription.isSharded = false) := by
  constructor
  · intro hne
    unfold acquireCollection checkPlacement checkDbVersion
    simp [hv, hcs, hdb, hne]
  · rintro pc (hpc | hpc) <;> subst hpc
    · refine ⟨acquiredResources st ⟨nss, ⟨none, none⟩, ty⟩ b, ?_, ?_, ?_, ?_⟩ <;>
        simp [acquireCollection, checkPlacement, checkDbVersion, hv, hcs, hdb, hcat,
          acquiredResources, collectionExists, frozenDescription]
    · refine ⟨acquiredResources st ⟨nss, ⟨some wdb, none⟩, ty⟩ b, ?_, ?_, ?_, ?_⟩ <;>
        simp [acquireCollection, checkPlacement, checkDbVersion, hv, hcs, hdb, hcat,
          acquiredResources, collectionExists, frozenDescription]

/-- C1 (amended): for a yielded Write-type acquisition whose placement
concern carries concrete database and shard versions with the shard version
not the IGNORED sentinel, and whose namespace resolves unchanged in the local
catalog at restore time, restore fails with a StaleConfig/StaleDbVersion
error if and only if the authoritative placement state (database version,
shard version, and their critical-section flags) changed since acquisition;
a yielded Read-type acquisition under the same concern restores successfully
regardless, keeping its handle state and its sharding description — hence its
filter's `keyBelongsToMe` answers — exactly as frozen from the state at
acquisition time, not from the new authoritative state. -/
theorem restore_write_stale_iff_placement_changed
    (st st2 : ShardRoleState) (nss : Nss) (dv : DatabaseVersion) (sv : ShardVersion)
    (bW bR : Bool) (trW trR : TransactionResources)
    (hsv : sv ≠ .IGNORED)
    (hW : acquireCollection st ⟨nss, ⟨some dv, some sv⟩, .kWrite⟩ bW = .ok trW)
    (hR : acquireCollection st ⟨nss, ⟨some dv, some sv⟩, .kRead⟩ bR = .ok trR)
    (hcat : lookupCatalog st2.catalog nss = lookupCatalog st.catalog nss) :
    (failsWithStale (restoreTransactionResourcesToOperationContext st2
        (yieldTransactionResourcesFromOperationContext trW)) = true
      ↔ placementChanged st st2)
    ∧ restoreTransactionResourcesToOperationContext st2
        (yieldTransactionResourcesFromOperationContext trR)
      = .ok (rebuildResources st2 (yieldTransactionResourcesFromOperationContext trR))
    ∧ (rebuildResources st2 (yieldTransactionResourcesFromOperationContext trR)).acquisition
      = trR.acquisition
    ∧ trR.acquisition.shardingDescription = frozenDescription st ⟨some dv, some sv⟩ := by
  obtain ⟨htrW, hpcW, -, -⟩ := acquire_ok_spec st _ bW trW hW
  obtain ⟨htrR, hpcR, -, -⟩ := acquire_ok_spec st _ bR trR hR
  have hstparts := (checkPlacement_none_iff st nss dv sv hsv).mp hpcW
  have hredW := restore_reduces_to_placement st st2 _ bW trW hW hcat
  have hredR := restore_reduces_to_placement st st2 _ bR trR hR hcat
  subst htrW
  subst htrR
  refine ⟨?_, ?_, rfl, rfl⟩
  · rw [hredW]
    unfold restorePlacementStep yieldTransactionResourcesFromOperationContext acquiredResources
    simp only
    cases hc2 : checkPlacement st2 nss ⟨some dv, some sv⟩ with
    | none =>
      have h2parts := (checkPlacement_none_iff st2 nss dv sv hsv).mp hc2
      simp [failsWithStale, placementChanged, hstparts.1, hstparts.2, h2parts.1, h2parts.2]
    | some e =>
      simp only [failsWithStale, checkPlacement_some_isStale st2 nss _ e hc2, true_iff]
      by_contra hnc
      unfold placementChanged at hnc
      push_neg at hnc
      have h2 : checkPlacement st2 nss ⟨some dv, some sv⟩ = none :=
        (checkPlacement_none_iff st2 nss dv sv hsv).mpr
          ⟨hnc.1.symm.trans hstparts.1, hnc.2.symm.trans hstparts.2⟩
      rw [h2] at hc2
      cases hc2
  · rw [hredR]
    rfl

def c1Nss : Nss := ⟨"test", "sharded"⟩

def c1St : ShardRoleState :=
  ⟨"this", some 1, false, .sharded 10 [⟨-100, 100, "this"⟩], false,
    [(c1Nss, .collection 8)], 0, 0, false⟩

def c1St2 : ShardRoleState :=
  { c1St with collMeta := .sharded 11 [⟨-100, 100, "anotherShard"⟩] }

def c1Tr : TransactionResources :=
  acquiredResources c1St ⟨c1Nss, ⟨none, some .IGNORED⟩, .kWrite⟩ true

/-- C1 counterexample: a yielded Write-type acquisition taken with the
IGNORED shard-version sentinel restores successfully even though the
authoritative placement changed since acquisition (placement version 10 with
this shard owning the chunk became version 11 with another shard owning it),
so restore of a Write acquisition does not fail whenever the authoritative
placement changed. -/
theorem restore_write_ignored_succeeds_despite_placement_change
    : acquireCollection c1St ⟨c1Nss, ⟨none, some .IGNORED⟩, .kWrite⟩ true = .ok c1Tr
    ∧ placementChanged c1St c1St2
    ∧ acqOk (restoreTransactionResourcesToOperationContext c1St2
        (yieldTransactionResourcesFromOperationContext c1Tr)) = true := by
  refine ⟨by decide, by decide, by decide⟩

def c1wSt : ShardRoleState :=
  ⟨"this", some 1, false, .sharded 10 [⟨-100, 100, "this"⟩], false,
    [(c1Nss, .collection 8)], 0, 0, false⟩

def c1wSt2 : ShardRoleState :=
  { c1wSt with collMeta := .sharded 11 [⟨-100, 100, "anotherShard"⟩] }

def c1wTrW : TransactionResources :=
  acquiredResources c1wSt ⟨c1Nss, ⟨some 1, some (.placed 10)⟩, .kWrite⟩ true

def c1wTrR : TransactionResources :=
  acquiredResources c1wSt ⟨c1Nss, ⟨some 1, some (.placed 10)⟩, .kRead⟩ true

/-- Witness for the amended C1 theorem at a concrete placement change. -/
theorem restore_write_stale_iff_placement_changed_witness :
    (failsWithStale (restoreTransactionResourcesToOperationContext c1wSt2
        (yieldTransactionResourcesFromOperationContext c1wTrW)) = true
      ↔ placementChanged c1wSt c1wSt2)
    ∧ restoreTransactionResourcesToOperationContext c1wSt2
        (yieldTransactionResourcesFromOperationContext c1wTrR)
      = .ok (rebuildResources c1wSt2 (yieldTransactionResourcesFromOperationContext c1wTrR))
    ∧ (rebuildResources c1wSt2 (yieldTransactionResourcesFromOperationContext c1wTrR)).acquisition
      = c1wTrR.acquisition
    ∧ c1wTrR.acquisition.shardingDescription = frozenDescription c1wSt ⟨some 1, some (.placed 10)⟩ :=
  restore_write_stale_iff_placement_changed c1wSt c1wSt2 c1Nss 1 (.placed 10) true true
    c1wTrW c1wTrR (by decide) (by decide) (by decide) (by decide)

/-- C2 (amended): for an acquisition of a valid namespace not resolving to a
view, with locks or lock-free, under a concern carrying concrete database and
shard versions (shard version not the IGNORED sentinel), while no critical
section is active and the shard knows both authoritative versions: if the
concern equals the authoritative versions the acquisition succeeds; if the
database version differs it fails with StaleDbVersion carrying exactly the
received and the wanted (authoritative) versions; if the shard version
differs it fails with StaleConfig carrying exactly the received and the
wanted (authoritative) versions. -/
theorem acquire_versions_match_or_stale (st : ShardRoleState) (nss : Nss)
    (ty : OperationType) (b : Bool) (dv wdb : DatabaseVersion) (sv wsv : ShardVersion)
    (hv : nss.valid = true)
    (hnotview : lookupCatalog st.catalog nss ≠ some .view)
    (hdb : st.dbMeta = some wdb) (hdbcs : st.dbCritSec = false)
    (hcoll : authShardVersion st.collMeta = some wsv) (hccs : st.collCritSec = false)
    (hsv : sv ≠ .IGNORED) :
    (dv = wdb ∧ sv = wsv →
      acqOk (acquireCollection st ⟨nss, ⟨some dv, some sv⟩, ty⟩ b) = true)
    ∧ (dv ≠ wdb →
      acquireCollection st ⟨nss, ⟨some dv, some sv⟩, ty⟩ b
        = .error (.staleDbVersion ⟨nss.db, dv, some wdb, false⟩))
    ∧ (dv = wdb → sv ≠ wsv →
      acquireCollection st ⟨nss, ⟨some dv, some sv⟩, ty⟩ b
        = .error (.staleConfig ⟨nss, sv, some wsv, st.thisShard, false⟩)) := by
  refine ⟨?_, ?_, ?_⟩
  · rintro ⟨rfl, rfl⟩
    unfold acquireCollection checkPlacement checkDbVersion checkShardVersion
    simp [hv, hdbcs, hdb, hccs, hcoll, hsv]
    cases hl : lookupCatalog st.catalog nss with
    | none => simp [acqOk]
    | some e =>
      cases e with
      | collection u2 => simp [acqOk]
      | view => exact absurd hl hnotview
  · intro hne
    unfold acquireCollection checkPlacement checkDbVersion
    simp [hv, hdbcs, hdb, hne]
  · intro hdveq hnesv
    subst hdveq
    unfold acquireCollection checkPlacement checkDbVersion checkShardVersion
    simp [hv, hdbcs, hdb, hccs, hcoll, hsv, hnesv]

def c2Nss : Nss := ⟨"test", "sharded"⟩

def c2St : ShardRoleState :=
  ⟨"this", some 1, false, .sharded 10 [⟨-100, 100, "this"⟩], true,
    [(c2Nss, .collection 8)], 0, 0, false⟩

/-- C2 counterexample: the placement concern equals the authoritative
versions (database version 1 and shard version 10), yet the acquisition
fails with StaleConfig because a collection critical section is active —
and the payload carries an unknown wanted version, not the authoritative
one.  So an acquisition under a concern equal to the authoritative versions
does not always succeed. -/
theorem acquire_matching_versions_fails_in_critical_section
    : c2St.dbMeta = some 1
    ∧ authShardVersion c2St.collMeta = some (.placed 10)
    ∧ acquireCollection c2St ⟨c2Nss, ⟨some 1, some (.placed 10)⟩, .kWrite⟩ true
        = .error (.staleConfig ⟨c2Nss, .placed 10, none, "this", true⟩) := by
  refine ⟨by decide, by decide, by decide⟩

def c2wSt : ShardRoleState :=
  ⟨"this", some 1, false, .sharded 10 [⟨-100, 100, "this"⟩], false,
    [(c2Nss, .collection 8)], 0, 0, false⟩

/-- Witness for the amended C2 theorem at a concrete matching concern. -/
theorem acquire_versions_match_or_stale_witness :
    (1 = 1 ∧ ShardVersion.placed 10 = ShardVersion.placed 10 →
      acqOk (acquireCollection c2wSt ⟨c2Nss, ⟨some 1, some (.placed 10)⟩, .kWrite⟩ true) = true)
    ∧ ((1 : DatabaseVersion) ≠ 1 →
      acquireCollection c2wSt ⟨c2Nss, ⟨some 1, some (.placed 10)⟩, .kWrite⟩ true
        = .error (.staleDbVersion ⟨c2Nss.db, 1, some 1, false⟩))
    ∧ (1 = 1 → ShardVersion.placed 10 ≠ ShardVersion.placed 10 →
      acquireCollection c2wSt ⟨c2Nss, ⟨some 1, some (.placed 10)⟩, .kWrite⟩ true
        = .error (.staleConfig ⟨c2Nss, .placed 10, some (.placed 10), c2wSt.thisShard, false⟩)) :=
  acquire_versions_match_or_stale c2wSt c2Nss .kWrite true 1 1 (.placed 10) (.placed 10)
    (by decide) (by decide) (by decide) (by decide) (by decide) (by decide) (by decide)

theorem restore_error_cases (st2 : ShardRoleState) (tr : TransactionResources) :
    (∀ u, tr.acquisition.uuid = some u →
      (lookupCatalog st2.catalog tr.acquisition.nss = none →
        restoreTransactionResourcesToOperationContext st2 tr = .error .collectionUUIDMismatch)
      ∧ (∀ u2, lookupCatalog st2.catalog tr.acquisition.nss = some (.collection u2) → u2 ≠ u →
        restoreTransactionResourcesToOperationContext st2 tr = .error .collectionUUIDMismatch)
      ∧ (lookupCatalog st2.catalog tr.acquisition.nss = some .view →
        restoreTransactionResourcesToOperationContext st2 tr = .error .collectionUUIDMismatch))
    ∧ (tr.acquisition.uuid = none →
      ∀ e, lookupCatalog st2.catalog tr.acquisition.nss = some e →
        restoreTransactionResourcesToOperationContext st2 tr
          = .error .appearedAfterYield743870) := by
  constructor
  · intro u hu
    refine ⟨?_, ?_, ?_⟩
    · intro hl
      unfold restoreTransactionResourcesToOperationContext
      rw [hu, hl]
    · intro u2 hl hne
      unfold restoreTransactionResourcesToOperationContext
      rw [hu, hl]
      simp [hne]
    · intro hl
      unfold restoreTransactionResourcesToOperationContext
      rw [hu, hl]
  · intro hu e hl
    unfold restoreTransactionResourcesToOperationContext
    rw [hu, hl]

/-- C3 (amended): for every yielded collection acquisition, Read or Write
type, restore fails with CollectionUUIDMismatch when the namespace was
dropped or renamed (it no longer resolves), when it was dropped and
recreated under a new UUID, or when it was replaced by a view; when the
namespace previously did not exist and was unexpectedly created while
yielded (with no write fence having observed the creation), restore fails
with the distinct internal error 743870, not with CollectionUUIDMismatch. -/
theorem restore_identity_mismatch_cases (st st2 : ShardRoleState)
    (req : CollectionAcquisitionRequest) (b : Bool) (tr : TransactionResources)
    (h : acquireCollection st req b = .ok tr) :
    (∀ u, tr.acquisition.uuid = some u →
      (lookupCatalog st2.catalog req.nss = none →
        restoreTransactionResourcesToOperationContext st2
          (yieldTransactionResourcesFromOperationContext tr)
          = .error .collectionUUIDMismatch)
      ∧ (∀ u2, lookupCatalog st2.catalog req.nss = some (.collection u2) → u2 ≠ u →
        restoreTransactionResourcesToOperationContext st2
          (yieldTransactionResourcesFromOperationContext tr)
          = .error .collectionUUIDMismatch)
      ∧ (lookupCatalog st2.catalog req.nss = some .view →
        restoreTransactionResourcesToOperationContext st2
          (yieldTransactionResourcesFromOperationContext tr)
          = .error .collectionUUIDMismatch))
    ∧ (tr.acquisition.uuid = none →
      ∀ e, lookupCatalog st2.catalog req.nss = some e →
        restoreTransactionResourcesToOperationContext st2
          (yieldTransactionResourcesFromOperationContext tr)
          = .error .appearedAfterYield743870) := by
  obtain ⟨htr, -, -, -⟩ := acquire_ok_spec st req b tr h
  subst htr
  exact restore_error_cases st2
    (yieldTransactionResourcesFromOperationContext (acquiredResources st req b))

def c3Nss : Nss := ⟨"test", "NonExistentCollectionWhichWillBeCreated"⟩

def c3St : ShardRoleState :=
  ⟨"this", some 1, false, .untracked, false, [], 0, 0, false⟩

def c3St2 : ShardRoleState :=
  { c3St with catalog := [(c3Nss, .collection 9)] }

def c3Tr : TransactionResources :=
  acquiredResources c3St ⟨c3Nss, ⟨none, none⟩, .kWrite⟩ true

/-- C3 counterexample: an acquisition of a namespace that did not exist,
yielded, and restored after the namespace was created, fails with the
distinct internal error 743870 and not with CollectionUUIDMismatch, contrary
to the claim's fifth case. -/
theorem restore_after_unexpected_creation_not_uuid_mismatch
    : acquireCollection c3St ⟨c3Nss, ⟨none, none⟩, .kWrite⟩ true = .ok c3Tr
    ∧ restoreTransactionResourcesToOperationContext c3St2
        (yieldTransactionResourcesFromOperationContext c3Tr)
        = .error .appearedAfterYield743870
    ∧ AcqError.appearedAfterYield743870 ≠ AcqError.collectionUUIDMismatch := by
  refine ⟨by decide, by decide, by decide⟩

def c3wSt : ShardRoleState :=
  ⟨"this", some 1, false, .untracked, false, [(⟨"test", "unsharded"⟩, .collection 7)], 0, 0, false⟩

def c3wTr : TransactionResources :=
  acquiredResources c3wSt ⟨⟨"test", "unsharded"⟩, ⟨some 1, some .UNSHARDED⟩, .kWrite⟩ true

def c3wSt2 : ShardRoleState :=
  { c3wSt with catalog := [(⟨"test", "unsharded"⟩, .collection 12)] }

/-- Witness for the amended C3 theorem: a dropped-and-recreated namespace
(UUID 7 became UUID 12) makes restore fail with CollectionUUIDMismatch. -/
theorem restore_identity_mismatch_cases_witness :
    c3wTr.acquisition.uuid = some 7
    ∧ lookupCatalog c3wSt2.catalog (⟨"test", "unsharded"⟩ : Nss) = some (.collection 12)
    ∧ restoreTransactionResourcesToOperationContext c3wSt2
        (yieldTransactionResourcesFromOperationContext c3wTr)
        = .error .collectionUUIDMismatch :=
  ⟨by decide, by decide,
    ((restore_identity_mismatch_cases c3wSt c3wSt2
        ⟨⟨"test", "unsharded"⟩, ⟨some 1, some .UNSHARDED⟩, .kWrite⟩ true c3wTr
        (by decide)).1 7 (by decide)).2.1 12 (by decide) (by decide)⟩

/-- C4 (amended): for a collection whose authoritative placement is sharded
at version v with no active critical section, acquiring it with
ShardVersion::UNSHARDED fails with StaleConfig carrying received=UNSHARDED
and wanted=v; with the collection critical section entered, the same
acquisition fails with StaleConfig carrying an initialized critical-section
signal (and an unknown wanted version); after exiting the critical section,
retrying with the authoritative shard version v succeeds — retrying with
UNSHARDED would still fail, since the authoritative placement is unchanged. -/
theorem stale_config_critical_section_scenario (st : ShardRoleState) (nss : Nss) (b : Bool)
    (v : Nat) (chunks : List Chunk) (u : Nat)
    (hv : nss.valid = true)
    (hcat : lookupCatalog st.catalog nss = some (.collection u))
    (hmeta : st.collMeta = .sharded v chunks)
    (hccs : st.collCritSec = false) :
    acquireCollection st ⟨nss, ⟨none, some .UNSHARDED⟩, .kWrite⟩ b
      = .error (.staleConfig ⟨nss, .UNSHARDED, some (.placed v), st.thisShard, false⟩)
    ∧ acquireCollection { st with collCritSec := true } ⟨nss, ⟨none, some .UNSHARDED⟩, .kWrite⟩ b
      = .error (.staleConfig ⟨nss, .UNSHARDED, none, st.thisShard, true⟩)
    ∧ acqOk (acquireCollection st ⟨nss, ⟨none, some (.placed v)⟩, .kWrite⟩ b) = true := by
  refine ⟨?_, ?_, ?_⟩ <;>
    simp [acquireCollection, checkPlacement, checkShardVersion, authShardVersion,
      hv, hcat, hmeta, hccs, acqOk]

def c4Nss : Nss := ⟨"test", "sharded"⟩

def c4St : ShardRoleState :=
  ⟨"this", some 1, false, .sharded 10 [⟨-100, 100, "this"⟩], false,
    [(c4Nss, .collection 8)], 0, 0, false⟩

/-- C4 counterexample: after exiting the critical section the state is back
to the original one, and retrying the scenario's acquisition — the one with
ShardVersion::UNSHARDED — still fails with StaleConfig rather than
succeeding, because the authoritative placement is still sharded at
version 10. -/
theorem retry_with_unsharded_after_exit_still_fails
    : c4St.collCritSec = false
    ∧ acquireCollection c4St ⟨c4Nss, ⟨none, some .UNSHARDED⟩, .kWrite⟩ true
        = .error (.staleConfig ⟨c4Nss, .UNSHARDED, some (.placed 10), "this", false⟩)
    ∧ acqOk (acquireCollection c4St ⟨c4Nss, ⟨none, some .UNSHARDED⟩, .kWrite⟩ true) = false := by
  refine ⟨by decide, by decide, by decide⟩

def c4wSt : ShardRoleState :=
  ⟨"this", some 1, false, .sharded 10 [⟨-100, 100, "this"⟩], false,
    [(c4Nss, .collection 18)], 0, 0, false⟩

/-- Witness for the amended C4 theorem at the concrete scenario state. -/
theorem stale_config_critical_section_scenario_witness :
    acquireCollection c4wSt ⟨c4Nss, ⟨none, some .UNSHARDED⟩, .kWrite⟩ true
      = .error (.staleConfig ⟨c4Nss, .UNSHARDED, some (.placed 10), c4wSt.thisShard, false⟩)
    ∧ acquireCollection { c4wSt with collCritSec := true }
        ⟨c4Nss, ⟨none, some .UNSHARDED⟩, .kWrite⟩ true
      = .error (.staleConfig ⟨c4Nss, .UNSHARDED, none, c4wSt.thisShard, true⟩)
    ∧ acqOk (acquireCollection c4wSt ⟨c4Nss, ⟨none, some (.placed 10)⟩, .kWrite⟩ true) = true :=
  stale_config_critical_section_scenario c4wSt c4Nss true 10 [⟨-100, 100, "this"⟩] 18
    (by decide) (by decide) (by decide) (by decide)

/-- C5: a ScopedLocalCatalogWriteFence whose unit of work commits leaves the
associated handle reporting that the collection exists with the newly
committed identity — the commit callback is a function of the handle and the
new identity only, independent of the fence object, so it applies even after
the fence's own scope has ended; if the unit of work instead rolls back
because a concurrent actor's conflicting create committed first, the handle
afterwards reflects the current committed catalog state (it exists, with the
concurrent actor's identity), not the handle's pre-attempt cached state. -/
theorem write_fence_commit_and_rollback (catalog : Catalog)
    (a : ScopedCollectionAcquisition) (u : Nat)
    (hpre : a.uuid = none) :
    (lookupCatalog catalog a.nss = none →
      commitCreateUnderFence catalog a u
        = (.committed, (a.nss, .collection u) :: catalog, fenceOnCommit a u)
      ∧ collectionExists (fenceOnCommit a u) = true
      ∧ (fenceOnCommit a u).uuid = some u)
    ∧ (∀ u2, lookupCatalog catalog a.nss = some (.collection u2) →
      (commitCreateUnderFence catalog a u).1 = .writeConflict
      ∧ (commitCreateUnderFence catalog a u).2.2.uuid = some u2
      ∧ collectionExists (commitCreateUnderFence catalog a u).2.2 = true
      ∧ (commitCreateUnderFence catalog a u).2.2.uuid ≠ a.uuid) := by
  constructor
  · intro hl
    refine ⟨?_, ?_, ?_⟩ <;>
      simp [commitCreateUnderFence, hl, fenceOnCommit, collectionExists]
  · intro u2 hl
    refine ⟨?_, ?_, ?_, ?_⟩ <;>
      simp [commitCreateUnderFence, hl, fenceOnRollback, collectionExists, hpre]

def c5Nss : Nss := ⟨"test", "inexistent"⟩

def c5Acq : ScopedCollectionAcquisition :=
  ⟨c5Nss, .kWrite, ⟨none, none⟩, none, ⟨false, "this", []⟩⟩

/-- Witness for the C5 theorem: committing against an empty catalog updates
the handle to the new identity; conflicting against a catalog already holding
UUID 21 rolls the handle forward to the concurrent actor's identity. -/
theorem write_fence_commit_and_rollback_witness :
    (lookupCatalog [] c5Acq.nss = none →
      commitCreateUnderFence [] c5Acq 20
        = (.committed, (c5Acq.nss, .collection 20) :: [], fenceOnCommit c5Acq 20)
      ∧ collectionExists (fenceOnCommit c5Acq 20) = true
      ∧ (fenceOnCommit c5Acq 20).uuid = some 20)
    ∧ (∀ u2, lookupCatalog [] c5Acq.nss = some (.collection u2) →
      (commitCreateUnderFence [] c5Acq 20).1 = .writeConflict
      ∧ (commitCreateUnderFence [] c5Acq 20).2.2.uuid = some u2
      ∧ collectionExists (commitCreateUnderFence [] c5Acq 20).2.2 = true
      ∧ (commitCreateUnderFence [] c5Acq 20).2.2.uuid ≠ c5Acq.uuid) :=
  write_fence_commit_and_rollback [] c5Acq 20 (by decide)

def c7Nss : Nss := ⟨"test", "unsharded"⟩

def c7St : ShardRoleState :=
  ⟨"this", some 1, false, .untracked, false, [(c7Nss, .collection 7)], 0, 0, false⟩

def c7TrLocked : TransactionResources :=
  acquiredResources c7St ⟨c7Nss, ⟨some 1, some .UNSHARDED⟩, .kWrite⟩ true

def c7TrLockFree : TransactionResources :=
  acquiredResources c7St ⟨c7Nss, ⟨some 1, some .UNSHARDED⟩, .kRead⟩ false

/-- Witness for the C7 theorem on both the locking and the lock-free path. -/
theorem yield_then_restore_roundtrip_witness :
    restoreTransactionResourcesToOperationContext c7St
        (yieldTransactionResourcesFromOperationContext c7TrLocked) = .ok c7TrLocked
    ∧ restoreTransactionResourcesToOperationContext c7St
        (yieldTransactionResourcesFromOperationContext c7TrLockFree) = .ok c7TrLockFree :=
  ⟨yield_then_restore_roundtrip c7St ⟨c7Nss, ⟨some 1, some .UNSHARDED⟩, .kWrite⟩ true
      c7TrLocked (by decide),
   yield_then_restore_roundtrip c7St ⟨c7Nss, ⟨some 1, some .UNSHARDED⟩, .kRead⟩ false
      c7TrLockFree (by decide)⟩

def c8Nss : Nss := ⟨"test", "sharded"⟩

def c8St : ShardRoleState :=
  ⟨"this", none, true, .sharded 10 [⟨-100, 100, "this"⟩], true,
    [(c8Nss, .collection 8)], 0, 0, false⟩

/-- Witness for the C8 theorem: both placement versions absent succeeds even
with cleared database metadata, sharded collection metadata and both critical
sections active. -/
theorem acquire_without_placement_concern_succeeds_witness :
    acqOk (acquireCollection c8St ⟨c8Nss, ⟨none, none⟩, .kWrite⟩ true) = true :=
  acquire_without_placement_concern_succeeds c8St c8Nss .kWrite true (by decide) (by decide)

def c9Nss : Nss := ⟨"test", "sharded"⟩

def c9St : ShardRoleState :=
  ⟨"this", some 1, false, .sharded 10 [⟨-100, 100, "this"⟩], false,
    [(c9Nss, .collection 8)], 0, 0, false⟩

/-- Witness for the C9 theorem at an authoritatively sharded collection. -/
theorem unversioned_acquisition_of_sharded_collection_witness :
    ∃ tr, acquireCollection c9St ⟨c9Nss, ⟨none, none⟩, .kRead⟩ true = .ok tr
      ∧ collectionExists tr.acquisition = true
      ∧ tr.acquisition.shardingDescription.isSharded = false
      ∧ getShardingFilter tr.acquisition = none :=
  unversioned_acquisition_of_sharded_collection c9St c9Nss .kRead true 10
    [⟨-100, 100, "this"⟩] 8 (by decide) (by decide) (by decide)

def c10Nss : Nss := ⟨"test", "inexistent"⟩

def c10St : ShardRoleState :=
  ⟨"this", some 1, false, .untracked, false, [(⟨"test", "unsharded"⟩, .collection 7)], 0, 0, false⟩

/-- Witness for the C10 theorem: a stale database version (2 instead of the
authoritative 1) on a non-existent namespace. -/
theorem inexistent_namespace_placement_validation_witness :
    ((2 : DatabaseVersion) ≠ 1 →
      acquireCollection c10St ⟨c10Nss, ⟨some 2, none⟩, .kWrite⟩ true
        = .error (.staleDbVersion ⟨c10Nss.db, 2, some 1, false⟩))
    ∧ (∀ pc : PlacementConcern, pc = ⟨none, none⟩ ∨ pc = ⟨some 1, none⟩ →
        ∃ tr, acquireCollection c10St ⟨c10Nss, pc, .kWrite⟩ true = .ok tr
          ∧ tr.acquisition.uuid = none
          ∧ collectionExists tr.acquisition = false
          ∧ tr.acquisition.shardingDescription.isSharded = false) :=
  inexistent_namespace_placement_validation c10St c10Nss .kWrite true 2 1
    (by decide) (by decide) (by decide) (by decide)

end ShardRole
